import Mathlib

/-!
Verification of the Kinesis knative source controller and receive adapter.

The definitions below are a shallow embedding of the Go sources:
* `pkg/apis/sources/v1alpha1/kinesis_types.go` (status conditions),
* `pkg/reconciler/kinesissource.go` (the reconcile loop),
* `pkg/reconciler/resources/receive_adapter.go` (the workload spec builder),
* the receive adapter (`ProcessRecords`, `Shutdown`, `postMessage`).

External collaborators (the duck-typed condition-set library, the
orchestration API client, the sink delivery client and the stream-consumer
runtime) are modelled at their interface boundary: the sink send is a
function parameter, API traffic is returned as an explicit list of calls,
and the condition aggregation is modelled from the specification since its
implementation lives in an external library.
-/

/-! ## Status conditions (kinesis_types.go) -/

/-- Tri-state condition status: True / False / Unknown. -/
inductive CondStatus
  | ctrue
  | cfalse
  | cunknown
deriving DecidableEq, Fintype, Repr

/-- One status condition: status, reason and message (the condition type is
the field position in `KinesisSourceStatus`). -/
structure Condition where
  status : CondStatus
  reason : String
  message : String
deriving DecidableEq, Repr

/-- Observed state of a source: the three conditions of the living condition
set (Ready, SinkProvided, Deployed) as an explicit mapping from the fixed
condition-type enumeration, plus the resolved sink URI. -/
structure KinesisSourceStatus where
  readyCond : Option Condition
  sinkProvidedCond : Option Condition
  deployedCond : Option Condition
  sinkURI : String
deriving DecidableEq, Repr

/-- A fresh status: no conditions set, empty sink URI. -/
def initialStatus : KinesisSourceStatus :=
  { readyCond := none, sinkProvidedCond := none, deployedCond := none, sinkURI := "" }

/-- Status of an optional condition. -/
def statusOf (c : Option Condition) : Option CondStatus :=
  c.map Condition.status

/-- Modelled from the spec: the Ready aggregation of the external duck-typed
condition-set library (not under src/). "Ready = True iff SinkProvided = True
AND Deployed = True; any other combination of inputs yields Ready in
{False, Unknown} by a fixed precedence (False dominates Unknown)."
An unset dependent behaves like Unknown. -/
def aggregateReady (sp dep : Option CondStatus) : CondStatus :=
  if sp = some CondStatus.ctrue ∧ dep = some CondStatus.ctrue then CondStatus.ctrue
  else if sp = some CondStatus.cfalse ∨ dep = some CondStatus.cfalse then CondStatus.cfalse
  else CondStatus.cunknown

/-- Modelled from the spec: after a dependent condition is marked, the living
condition set recomputes the derived Ready condition by the total aggregation
function. -/
def recomputeReady (s : KinesisSourceStatus) : KinesisSourceStatus :=
  let r : Condition :=
    ⟨aggregateReady (statusOf s.sinkProvidedCond) (statusOf s.deployedCond), "", ""⟩
  { s with readyCond := some r }

/-- `InitializeConditions` sets relevant unset conditions to Unknown state
(set conditions are kept). -/
def InitializeConditions (s : KinesisSourceStatus) : KinesisSourceStatus :=
  { s with
    readyCond := some (s.readyCond.getD ⟨CondStatus.cunknown, "", ""⟩),
    sinkProvidedCond := some (s.sinkProvidedCond.getD ⟨CondStatus.cunknown, "", ""⟩),
    deployedCond := some (s.deployedCond.getD ⟨CondStatus.cunknown, "", ""⟩) }

/-- `MarkSink` records the URI and marks SinkProvided True when the URI is
non-empty, otherwise Unknown with reason "SinkEmpty". -/
def MarkSink (s : KinesisSourceStatus) (uri : String) : KinesisSourceStatus :=
  let c : Condition :=
    if uri.length > 0 then ⟨CondStatus.ctrue, "", ""⟩
    else ⟨CondStatus.cunknown, "SinkEmpty", "Sink has resolved to empty."⟩
  recomputeReady { s with sinkURI := uri, sinkProvidedCond := some c }

/-- `MarkNoSink` marks SinkProvided False with the given reason and message. -/
def MarkNoSink (s : KinesisSourceStatus) (reason message : String) : KinesisSourceStatus :=
  recomputeReady { s with sinkProvidedCond := some ⟨CondStatus.cfalse, reason, message⟩ }

/-- `MarkDeployed` marks Deployed True. -/
def MarkDeployed (s : KinesisSourceStatus) : KinesisSourceStatus :=
  recomputeReady { s with deployedCond := some ⟨CondStatus.ctrue, "", ""⟩ }

/-- `MarkDeploying` marks Deployed Unknown with the given reason and message. -/
def MarkDeploying (s : KinesisSourceStatus) (reason message : String) : KinesisSourceStatus :=
  recomputeReady { s with deployedCond := some ⟨CondStatus.cunknown, reason, message⟩ }

/-- `MarkNotDeployed` marks Deployed False with the given reason and message. -/
def MarkNotDeployed (s : KinesisSourceStatus) (reason message : String) : KinesisSourceStatus :=
  recomputeReady { s with deployedCond := some ⟨CondStatus.cfalse, reason, message⟩ }

/-- `IsReady` returns true if the resource is ready overall (the derived
Ready condition has status True). -/
def IsReady (s : KinesisSourceStatus) : Bool :=
  decide (statusOf s.readyCond = some CondStatus.ctrue)

/-- The public mutators of `KinesisSourceStatus`. -/
inductive StatusOp
  | initConditions
  | markSink (uri : String)
  | markNoSink (reason message : String)
  | markDeployed
  | markDeploying (reason message : String)
  | markNotDeployed (reason message : String)
deriving DecidableEq, Repr

/-- Apply one status mutator. -/
def applyStatusOp (s : KinesisSourceStatus) : StatusOp → KinesisSourceStatus
  | StatusOp.initConditions => InitializeConditions s
  | StatusOp.markSink uri => MarkSink s uri
  | StatusOp.markNoSink r m => MarkNoSink s r m
  | StatusOp.markDeployed => MarkDeployed s
  | StatusOp.markDeploying r m => MarkDeploying s r m
  | StatusOp.markNotDeployed r m => MarkNotDeployed s r m

/-- Run a sequence of status mutators from the fresh status. -/
def runStatusOps (ops : List StatusOp) : KinesisSourceStatus :=
  ops.foldl applyStatusOp initialStatus

/-! ## Source resource (kinesis_types.go) -/

/-- Selector of a key inside a named secret. -/
structure SecretKeySelector where
  name : String
  key : String
deriving DecidableEq, Repr

/-- KIAM role-assumption configuration. -/
structure KiamOptions where
  assignedIAMRole : String
  kclIAMRoleARN : String
deriving DecidableEq, Repr

/-- Desired state of a Kinesis source. -/
structure KinesisSourceSpec where
  streamName : String
  region : String
  awsCredsSecret : SecretKeySelector
  kiamOptions : KiamOptions
  sink : Option String
  serviceAccountName : String
deriving DecidableEq, Repr

/-- A KinesisSource resource: identity, finalizers, deletion marker, desired
spec and observed status. -/
structure KinesisSource where
  name : String
  ns : String
  finalizers : List String
  deletionTimestamp : Option Int
  spec : KinesisSourceSpec
  status : KinesisSourceStatus
deriving DecidableEq, Repr

/-! ## Receive adapter workload (resources/receive_adapter.go) -/

/-- A container environment variable. -/
structure EnvVar where
  name : String
  value : String
deriving DecidableEq, Repr

/-- A container volume mount. -/
structure VolumeMount where
  name : String
  mountPath : String
deriving DecidableEq, Repr

/-- A pod volume backed by a secret (the only volume source this controller
uses); `secretName` is the `VolumeSource.Secret.SecretName` field. -/
structure Volume where
  name : String
  secretName : String
deriving DecidableEq, Repr

/-- A workload container: the fields this controller manages. -/
structure Container where
  name : String
  image : String
  env : List EnvVar
  volumeMounts : List VolumeMount
deriving DecidableEq, Repr

/-- A pod spec: the fields this controller manages. -/
structure PodSpec where
  serviceAccountName : String
  containers : List Container
  volumes : List Volume
deriving DecidableEq, Repr

/-- Pod template: annotations, labels and the pod spec. -/
structure PodTemplateSpec where
  annotations : List (String × String)
  labels : List (String × String)
  spec : PodSpec
deriving DecidableEq, Repr

/-- Deployment spec: selector, replica count and pod template. -/
structure DeploymentSpec where
  selectorMatchLabels : List (String × String)
  replicas : Int
  template : PodTemplateSpec
deriving DecidableEq, Repr

/-- A Deployment: metadata plus its spec. -/
structure Deployment where
  ns : String
  generateName : String
  labels : List (String × String)
  spec : DeploymentSpec
deriving DecidableEq, Repr

/-- Arguments needed to create a receive adapter deployment. -/
structure ReceiveAdapterArgs where
  image : String
  source : KinesisSource
  labels : List (String × String)
  sinkURI : String

/-- `makeDeploymentSpec`: the secret-credential branch is taken exactly when
both the secret name and the secret key are non-empty; it mounts the secret
volume and sets AWS_APPLICATION_CREDENTIALS.  The other branch annotates the
pod with the assigned KIAM role and sets KCL_IAM_ROLE_ARN. -/
def makeDeploymentSpec (args : ReceiveAdapterArgs) : DeploymentSpec :=
  let replicas : Int := 1
  if args.source.spec.awsCredsSecret.name ≠ "" ∧
      args.source.spec.awsCredsSecret.key ≠ "" then
    let credsVolume := "aws-credentials"
    let credsMountPath := "/var/secrets/aws"
    let credsFile := credsMountPath ++ "/" ++ args.source.spec.awsCredsSecret.key
    { selectorMatchLabels := args.labels,
      replicas := replicas,
      template :=
        { annotations := [("sidecar.istio.io/inject", "true")],
          labels := args.labels,
          spec :=
            { serviceAccountName := args.source.spec.serviceAccountName,
              containers :=
                [{ name := "receive-adapter",
                   image := args.image,
                   env :=
                     [⟨"AWS_APPLICATION_CREDENTIALS", credsFile⟩,
                      ⟨"STREAM_NAME", args.source.spec.streamName⟩,
                      ⟨"REGION", args.source.spec.region⟩,
                      ⟨"SINK_URI", args.sinkURI⟩,
                      ⟨"CONSUMER_NAME", args.source.name⟩],
                   volumeMounts := [⟨credsVolume, credsMountPath⟩] }],
              volumes := [⟨credsVolume, args.source.spec.awsCredsSecret.name⟩] } } }
  else
    { selectorMatchLabels := args.labels,
      replicas := replicas,
      template :=
        { annotations :=
            [("sidecar.istio.io/inject", "true"),
             ("iam.amazonaws.com/role", args.source.spec.kiamOptions.assignedIAMRole)],
          labels := args.labels,
          spec :=
            { serviceAccountName := args.source.spec.serviceAccountName,
              containers :=
                [{ name := "receive-adapter",
                   image := args.image,
                   env :=
                     [⟨"STREAM_NAME", args.source.spec.streamName⟩,
                      ⟨"KCL_IAM_ROLE_ARN", args.source.spec.kiamOptions.kclIAMRoleARN⟩,
                      ⟨"REGION", args.source.spec.region⟩,
                      ⟨"SINK_URI", args.sinkURI⟩,
                      ⟨"CONSUMER_NAME", args.source.name⟩],
                   volumeMounts := [] }],
              volumes := [] } } }

/-- `MakeReceiveAdapter` generates (but does not insert) the receive adapter
deployment for a source. -/
def MakeReceiveAdapter (args : ReceiveAdapterArgs) : Deployment :=
  { ns := args.source.ns,
    generateName := "kinesis-" ++ args.source.name ++ "-",
    labels := args.labels,
    spec := makeDeploymentSpec args }

/-! ## Reconciler (kinesissource.go) -/

/-- The string this controller uses to identify itself. -/
def controllerAgentName : String := "aws-kinesis-source-controller"

/-- The finalizer this controller installs. -/
def finalizerName : String := controllerAgentName

/-- Labels derived deterministically from the source identity. -/
def getLabels (src : KinesisSource) : List (String × String) :=
  [("knative-eventing-source", controllerAgentName),
   ("knative-eventing-source-name", src.name)]

/-- The Go string-set `List()`: deduplicated, sorted ascending. -/
def stringSetList (l : List String) : List String :=
  List.insertionSort (· ≤ ·) l.dedup

/-- `addFinalizer`: insert the finalizer into the string set of finalizers. -/
def addFinalizer (fins : List String) : List String :=
  stringSetList (finalizerName :: fins)

/-- `removeFinalizer`: delete the finalizer from the string set of
finalizers. -/
def removeFinalizer (fins : List String) : List String :=
  stringSetList (fins.filter (fun x => x ≠ finalizerName))

/-- Modelled after `equality.Semantic.DeepDerivative` on slices: an empty
new slice is treated as unset; otherwise lengths must match and elements are
compared pairwise. -/
def listDeriv (f : α → α → Bool) : List α → List α → Bool
  | [], _ => true
  | n, o => n.length == o.length && ((n.zip o).all fun p => f p.1 p.2)

/-- Modelled after `DeepDerivative` on env vars: empty strings in the new
value are ignored. -/
def envVarDeriv (n o : EnvVar) : Bool :=
  (n.name == "" || n.name == o.name) && (n.value == "" || n.value == o.value)

/-- Modelled after `DeepDerivative` on volume mounts. -/
def volumeMountDeriv (n o : VolumeMount) : Bool :=
  (n.name == "" || n.name == o.name) && (n.mountPath == "" || n.mountPath == o.mountPath)

/-- Modelled after `DeepDerivative` on volumes. -/
def volumeDeriv (n o : Volume) : Bool :=
  (n.name == "" || n.name == o.name) && (n.secretName == "" || n.secretName == o.secretName)

/-- Modelled after `DeepDerivative` on containers. -/
def containerDeriv (n o : Container) : Bool :=
  (n.name == "" || n.name == o.name) && (n.image == "" || n.image == o.image) &&
    listDeriv envVarDeriv n.env o.env && listDeriv volumeMountDeriv n.volumeMounts o.volumeMounts

/-- Modelled after `DeepDerivative` on pod specs, over the fields this
controller manages. -/
def podSpecDeriv (n o : PodSpec) : Bool :=
  (n.serviceAccountName == "" || n.serviceAccountName == o.serviceAccountName) &&
    listDeriv containerDeriv n.containers o.containers &&
    listDeriv volumeDeriv n.volumes o.volumes

/-- `podSpecChanged`: true when the desired pod spec is not a derivative of
the existing one, the container counts differ, or some container's env list
differs (an explicit per-container env equality check). -/
def podSpecChanged (oldPodSpec newPodSpec : PodSpec) : Bool :=
  !(podSpecDeriv newPodSpec oldPodSpec) ||
    (oldPodSpec.containers.length != newPodSpec.containers.length) ||
    ((newPodSpec.containers.zip oldPodSpec.containers).any fun p => p.1.env != p.2.env)

/-- An API call issued against the orchestration API. -/
inductive ApiCall
  | create (d : Deployment)
  | update (d : Deployment)
deriving DecidableEq, Repr

/-- Outcome of the owned-workload lookup (`getReceiveAdapter`): the first
owner-matching deployment, not-found, or a list error. -/
inductive LookupResult
  | found (d : Deployment)
  | notFound
  | err (e : String)
deriving DecidableEq, Repr

/-- `createReceiveAdapter`: propagate lookup errors, reject an entirely empty
credential configuration, then reuse / update / create the deployment.
Returns the resulting deployment together with the create/update calls
issued. -/
def createReceiveAdapter (image : String) (src : KinesisSource) (sinkURI : String)
    (lookup : LookupResult) : Except String (Deployment × List ApiCall) :=
  match lookup with
  | LookupResult.err e => Except.error e
  | _ =>
    if src.spec.awsCredsSecret.name = "" ∧ src.spec.awsCredsSecret.key = "" ∧
        src.spec.kiamOptions.assignedIAMRole = "" ∧
        src.spec.kiamOptions.kclIAMRoleARN = "" then
      Except.error "Configuration error"
    else
      let adapterArgs : ReceiveAdapterArgs :=
        { image := image, source := src, labels := getLabels src, sinkURI := sinkURI }
      let expected := MakeReceiveAdapter adapterArgs
      match lookup with
      | LookupResult.found ra =>
        if podSpecChanged ra.spec.template.spec expected.spec.template.spec then
          let ra2 := { ra with spec :=
            { ra.spec with template := { ra.spec.template with spec := expected.spec.template.spec } } }
          Except.ok (ra2, [ApiCall.update ra2])
        else
          Except.ok (ra, [])
      | _ =>
        Except.ok (expected, [ApiCall.create expected])

/-- Result of one reconciliation pass: the written-back source, the workload
API calls issued, and the error returned to the host (if any). -/
structure ReconcileResult where
  src : KinesisSource
  calls : List ApiCall
  err : Option String
deriving DecidableEq, Repr

/-- `Reconcile`: one pass of the level-triggered loop.  The sink resolution
and the workload lookup are external collaborators, passed in as their
results. -/
def reconcile (image : String) (src : KinesisSource)
    (sinkResult : Except String String) (lookup : LookupResult) : ReconcileResult :=
  if src.deletionTimestamp.isSome then
    { src := { src with finalizers := removeFinalizer src.finalizers }, calls := [], err := none }
  else
    let src1 := { src with finalizers := addFinalizer src.finalizers }
    let src2 := { src1 with status := InitializeConditions src1.status }
    match sinkResult with
    | Except.error e =>
      { src := { src2 with status := MarkNoSink src2.status "NotFound" "" },
        calls := [], err := some e }
    | Except.ok sinkURI =>
      let src3 := { src2 with status := MarkSink src2.status sinkURI }
      match createReceiveAdapter image src3 sinkURI lookup with
      | Except.error e => { src := src3, calls := [], err := some e }
      | Except.ok (_, calls) =>
        { src := { src3 with status := MarkDeployed src3.status }, calls := calls, err := none }

/-! ## Receive adapter delivery pipeline (adapter package) -/

/-- A Kinesis record as delivered by the stream-consumer runtime.  In the Go
code `SequenceNumber` is a pointer to a string; `seqNumAddr` models the
address of that pointer cell and `sequenceNumber` the string it points to. -/
structure KRecord where
  seqNumAddr : Nat
  sequenceNumber : String
  partitionKey : String
  data : String
deriving DecidableEq, Repr

/-- The batch input of a `ProcessRecords` callback. -/
structure ProcessRecordsInput where
  records : List KRecord
  millisBehindLatest : Int
deriving DecidableEq, Repr

/-- The cloud event envelope built for one batch. -/
structure CloudEvent where
  id : String
  eventType : String
  source : String
  time : Int
  extensions : List (String × String)
  data : ProcessRecordsInput
deriving DecidableEq, Repr

/-- The receive adapter configuration (stream ARN already resolved). -/
structure Adapter where
  streamName : String
  region : String
  sinkURI : String
  kclIAMRoleARN : String
  credsFile : String
  streamARN : String
  consumerName : String
deriving DecidableEq, Repr

/-- The fixed event type constant. -/
def eventType : String := "aws.kinesis.event"

/-- Modelled after Go `fmt`'s default `%v` formatting of a non-nil pointer to
a string: the address in lowercase hexadecimal with a `0x` prefix (the
pointee is not dereferenced). -/
def goFmtPtrString (addr : Nat) : String :=
  "0x" ++ (Nat.toDigits 16 addr).asString

/-- The envelope `postMessage` builds for a batch: the event id is
`fmt.Sprintf("%v:%v", sequenceNumber, recordsCount)` where `sequenceNumber`
is the *pointer* `m.Records[0].SequenceNumber`; the indexing of the first
record is modelled by `List.get?` (`none` would be an out-of-bounds panic).
`now` stands for `time.Now()` in milliseconds. -/
def recordsEvent (a : Adapter) (now : Int) (m : ProcessRecordsInput) : Option CloudEvent :=
  (m.records.get? 0).map fun r0 =>
    { id := goFmtPtrString r0.seqNumAddr ++ ":" ++ toString m.records.length,
      eventType := eventType,
      source := "/" ++ a.streamARN,
      time := now - m.millisBehindLatest,
      extensions :=
        [("Ext_KinesisSchemaVersion", "1.0"),
         ("Ext_EventSource", "aws:kinesis"),
         ("Ext_EventName", "aws:kinesis:record"),
         ("Ext_EventSourceARN", a.streamARN),
         ("Ext_Region", a.region)],
      data := m }

/-- `postMessage` builds the envelope for the batch and sends it through the
sink delivery client `send`, returning the envelope and the send outcome. -/
def postMessage (a : Adapter) (now : Int) (send : CloudEvent → Except String Unit)
    (m : ProcessRecordsInput) : Option (CloudEvent × Except String Unit) :=
  (recordsEvent a now m).map fun ev => (ev, send ev)

/-- The externally visible outcome of one `ProcessRecords` callback: the
envelope posted to the sink (if any) and the checkpoint issued (if any;
`some none` is a checkpoint with no explicit offset). -/
structure ProcessResult where
  posted : Option CloudEvent
  checkpoint : Option (Option String)
deriving DecidableEq, Repr

/-- `ProcessRecords`: skip empty batches, forward the envelope synchronously,
and checkpoint at the last record's sequence number only when the forward
returned no error.  A `none` result models an out-of-bounds record access
(a panic); the final claim shows it never occurs. -/
def ProcessRecords (a : Adapter) (now : Int) (send : CloudEvent → Except String Unit)
    (m : ProcessRecordsInput) : Option ProcessResult :=
  if m.records.length = 0 then some { posted := none, checkpoint := none }
  else
    match postMessage a now send m with
    | none => none
    | some (ev, Except.error _) => some { posted := some ev, checkpoint := none }
    | some (ev, Except.ok _) =>
      match m.records.get? (m.records.length - 1) with
      | none => none
      | some lastRecord =>
        some { posted := some ev, checkpoint := some (some lastRecord.sequenceNumber) }

/-- Shutdown reasons of the stream-consumer runtime. -/
inductive ShutdownReason
  | terminate
  | zombie
  | requested
deriving DecidableEq, Repr

/-- `Shutdown`: on reason terminate issue a checkpoint with no explicit
offset (`some none`), otherwise issue no checkpoint (`none`). -/
def Shutdown (reason : ShutdownReason) : Option (Option String) :=
  if reason = ShutdownReason.terminate then some none else none

/-! ## Sample inputs used by witnesses and counterexamples -/

/-- The source of the upstream secret-credential unit test: both the secret
reference and the KIAM role pair are populated. -/
def srcBoth : KinesisSource :=
  { name := "source-name",
    ns := "source-namespace",
    finalizers := [],
    deletionTimestamp := none,
    spec :=
      { streamName := "kinesis-name",
        region := "us-west-2",
        awsCredsSecret := { name := "kinesis-secret-name", key := "aws-secret-key" },
        kiamOptions := { assignedIAMRole := "ASSIGNED-IAM-ROLE", kclIAMRoleARN := "ROLE-ARN" },
        sink := some "sink-ref",
        serviceAccountName := "source-svc-acct" },
    status := initialStatus }

/-- A source whose credential configuration is partial: only the secret name
is set; the key and both role options are empty. -/
def srcPartial : KinesisSource :=
  { name := "partial-name",
    ns := "partial-namespace",
    finalizers := [],
    deletionTimestamp := none,
    spec :=
      { streamName := "kinesis-name",
        region := "us-west-2",
        awsCredsSecret := { name := "kinesis-secret-name", key := "" },
        kiamOptions := { assignedIAMRole := "", kclIAMRoleARN := "" },
        sink := some "sink-ref",
        serviceAccountName := "svc-acct" },
    status := initialStatus }

/-- The KIAM-only source of the upstream unit test. -/
def srcKiam : KinesisSource :=
  { name := "source-name",
    ns := "source-namespace",
    finalizers := [],
    deletionTimestamp := none,
    spec :=
      { streamName := "kinesis-name",
        region := "us-west-2",
        awsCredsSecret := { name := "", key := "" },
        kiamOptions := { assignedIAMRole := "assigned-role", kclIAMRoleARN := "kcl-role" },
        sink := some "sink-ref",
        serviceAccountName := "source-svc-acct" },
    status := initialStatus }

/-- The adapter configuration of the upstream `postMessage` unit test. -/
def adapterSample : Adapter :=
  { streamName := "kinesis-name",
    region := "us-west-2",
    sinkURI := "http://sink.example",
    kclIAMRoleARN := "kiam-role-arn",
    credsFile := "",
    streamARN := "arn:aws:kinesis:us-west-2:4444444:stream/kinesis-name",
    consumerName := "source-name" }

/-- The single-record batch of the upstream `postMessage` unit test. -/
def batchSample : ProcessRecordsInput :=
  { records :=
      [{ seqNumAddr := 824634245136,
         sequenceNumber := "1234567",
         partitionKey := "1",
         data := "eyJrZXkiOiJ2YWx1ZSJ9" }],
    millisBehindLatest := 1000 }

/-! ## Further definitions used by the claims -/

/-- The condition-set invariant maintained by the status mutators: either no
condition has been set yet, or the stored Ready condition carries exactly the
aggregation of the two dependent conditions. -/
def CondInv (s : KinesisSourceStatus) : Prop :=
  (s.readyCond = none ∧ s.sinkProvidedCond = none ∧ s.deployedCond = none) ∨
    statusOf s.readyCond =
      some (aggregateReady (statusOf s.sinkProvidedCond) (statusOf s.deployedCond))

/-- Following the spec's words (refinement comparison, not from the source):
the secret reference is populated when both its name and key are set. -/
def credSecretPopulated (s : KinesisSourceSpec) : Bool :=
  (s.awsCredsSecret.name != "") && (s.awsCredsSecret.key != "")

/-- Following the spec's words (refinement comparison, not from the source):
the role-assumption pair is populated when both the assigned role and the
consumer role ARN are set. -/
def credRolePopulated (s : KinesisSourceSpec) : Bool :=
  (s.kiamOptions.assignedIAMRole != "") && (s.kiamOptions.kclIAMRoleARN != "")

/-- Following the spec's words (refinement comparison, not from the source):
exactly one of the secret reference and the role-assumption pair is
populated. -/
def credConfigExactlyOne (s : KinesisSourceSpec) : Bool :=
  credSecretPopulated s ^^ credRolePopulated s

/-- A source with an entirely empty credential configuration. -/
def srcEmpty : KinesisSource :=
  { name := "empty-name",
    ns := "empty-namespace",
    finalizers := [],
    deletionTimestamp := none,
    spec :=
      { streamName := "kinesis-name",
        region := "us-west-2",
        awsCredsSecret := { name := "", key := "" },
        kiamOptions := { assignedIAMRole := "", kclIAMRoleARN := "" },
        sink := some "sink-ref",
        serviceAccountName := "svc-acct" },
    status := initialStatus }

/-- The KIAM sample source, marked for deletion and carrying the finalizer. -/
def srcDel : KinesisSource :=
  { srcKiam with deletionTimestamp := some 5, finalizers := [finalizerName, "other.finalizer"] }

/-- The receive adapter deployment generated for the KIAM sample source. -/
def raKiam : Deployment :=
  MakeReceiveAdapter
    { image := "test-image", source := srcKiam, labels := getLabels srcKiam, sinkURI := "sink-uri" }

/-- Receive adapter arguments for the doubly-configured sample source. -/
def argsBoth : ReceiveAdapterArgs :=
  { image := "test-image", source := srcBoth, labels := getLabels srcBoth, sinkURI := "sink-uri" }

/-- A sink delivery client that accepts every envelope. -/
def sendOk : CloudEvent → Except String Unit := fun _ => Except.ok ()

/-- The envelope built for the sample batch at time 0. -/
def evSample : CloudEvent :=
  (recordsEvent adapterSample 0 batchSample).getD ⟨"", "", "", 0, [], batchSample⟩

/-- The sample single-record batch with the address of the first record's
sequence-number pointer cell left abstract. -/
def batchAddr (addr : Nat) : ProcessRecordsInput :=
  { records :=
      [{ seqNumAddr := addr,
         sequenceNumber := "1234567",
         partitionKey := "1",
         data := "eyJrZXkiOiJ2YWx1ZSJ9" }],
    millisBehindLatest := 1000 }

/-! ## Condition-set lemmas and claim C1 -/

theorem aggregate_true_iff : ∀ sp dep : Option CondStatus,
    aggregateReady sp dep = CondStatus.ctrue ↔
      (sp = some CondStatus.ctrue ∧ dep = some CondStatus.ctrue) := by decide

theorem aggregate_false_iff : ∀ sp dep : Option CondStatus,
    aggregateReady sp dep = CondStatus.cfalse ↔
      (sp = some CondStatus.cfalse ∨ dep = some CondStatus.cfalse) := by decide

theorem aggregate_init : ∀ sp dep : Option CondStatus,
    aggregateReady (some (sp.getD CondStatus.cunknown)) (some (dep.getD CondStatus.cunknown)) =
      aggregateReady sp dep := by decide

theorem statusOf_getD (oc : Option Condition) :
    statusOf (some (oc.getD ⟨CondStatus.cunknown, "", ""⟩)) =
      some ((statusOf oc).getD CondStatus.cunknown) := by
  cases oc <;> rfl

theorem condInv_applyStatusOp (s : KinesisSourceStatus) (op : StatusOp) (h : CondInv s) :
    CondInv (applyStatusOp s op) := by
  cases op with
  | initConditions =>
    right
    simp only [applyStatusOp, InitializeConditions, statusOf_getD, aggregate_init]
    rcases h with ⟨h1, h2, h3⟩ | h
    · rw [h1, h2, h3]; rfl
    · rw [h]; rfl
  | markSink uri => exact Or.inr rfl
  | markNoSink r m => exact Or.inr rfl
  | markDeployed => exact Or.inr rfl
  | markDeploying r m => exact Or.inr rfl
  | markNotDeployed r m => exact Or.inr rfl

theorem condInv_foldl (l : List StatusOp) :
    ∀ s : KinesisSourceStatus, CondInv s → CondInv (l.foldl applyStatusOp s) := by
  induction l with
  | nil => intro s hs; exact hs
  | cons a t ih => intro s hs; exact ih _ (condInv_applyStatusOp s a hs)

theorem condInv_run (ops : List StatusOp) : CondInv (runStatusOps ops) :=
  condInv_foldl ops initialStatus (Or.inl ⟨rfl, rfl, rfl⟩)

theorem readyCond_applyStatusOp_isSome (s : KinesisSourceStatus) (op : StatusOp) :
    (applyStatusOp s op).readyCond.isSome = true := by
  cases op <;>
    simp [applyStatusOp, InitializeConditions, MarkSink, MarkNoSink, MarkDeployed,
      MarkDeploying, MarkNotDeployed, recomputeReady]

theorem readyCond_foldl_isSome (l : List StatusOp) :
    ∀ s : KinesisSourceStatus, s.readyCond.isSome = true →
      (l.foldl applyStatusOp s).readyCond.isSome = true := by
  induction l with
  | nil => intro s hs; exact hs
  | cons a t ih => intro s _; exact ih _ (readyCond_applyStatusOp_isSome s a)

/-- C1: over every status reachable by a sequence of the public mutators
(InitializeConditions, MarkSink, MarkNoSink, MarkDeployed, MarkDeploying,
MarkNotDeployed) from a fresh status, the derived Ready condition is True
exactly when SinkProvided is True and Deployed is True; it is False exactly
when at least one of the two is False (so False dominates Unknown); and
after at least one mutation the Ready condition is present, hence otherwise
Unknown. -/
theorem ready_iff_sinkProvided_and_deployed (ops : List StatusOp) :
    (IsReady (runStatusOps ops) = true ↔
      (statusOf (runStatusOps ops).sinkProvidedCond = some CondStatus.ctrue ∧
       statusOf (runStatusOps ops).deployedCond = some CondStatus.ctrue)) ∧
    (statusOf (runStatusOps ops).readyCond = some CondStatus.cfalse ↔
      (statusOf (runStatusOps ops).sinkProvidedCond = some CondStatus.cfalse ∨
       statusOf (runStatusOps ops).deployedCond = some CondStatus.cfalse)) ∧
    (ops ≠ [] → (runStatusOps ops).readyCond.isSome = true) := by
  refine ⟨?_, ?_, ?_⟩
  case _ =>
    rcases condInv_run ops with ⟨h1, h2, h3⟩ | h
    · simp [IsReady, h1, h2, h3, statusOf]
    · simp [IsReady, h, aggregate_true_iff]
  case _ =>
    rcases condInv_run ops with ⟨h1, h2, h3⟩ | h
    · simp [h1, h2, h3, statusOf]
    · simp [h, aggregate_false_iff]
  case _ =>
    intro hne
    cases ops with
    | nil => exact absurd rfl hne
    | cons a t =>
      exact readyCond_foldl_isSome t _ (readyCond_applyStatusOp_isSome initialStatus a)

/-- Witness for C1 at a concrete mutation sequence: marking a sink and a
deployment makes the source Ready, and the Ready condition is present. -/
theorem ready_iff_sinkProvided_and_deployed_witness :
    IsReady (runStatusOps [StatusOp.markSink "http://sink", StatusOp.markDeployed]) = true ∧
    (runStatusOps [StatusOp.markSink "http://sink", StatusOp.markDeployed]).readyCond.isSome
      = true :=
  ⟨(ready_iff_sinkProvided_and_deployed _).1.mpr ⟨by decide, by decide⟩,
   (ready_iff_sinkProvided_and_deployed _).2.2 (by decide)⟩

/-! ## Claims C7 and C8: sink-resolution failure and deletion -/

theorem aggregate_false_left : ∀ dep : Option CondStatus,
    aggregateReady (some CondStatus.cfalse) dep = CondStatus.cfalse := by decide

/-- C7: in every reconciliation pass over a live source in which sink
resolution fails, the SinkProvided condition is marked False with reason
"NotFound" and an empty message, the error is returned to the host, no
workload call is made, and Ready is not True at the end of the pass. -/
theorem reconcile_sinkFailure (image : String) (src : KinesisSource) (e : String)
    (lookup : LookupResult) (hdel : src.deletionTimestamp = none) :
    (reconcile image src (Except.error e) lookup).err = some e ∧
    (reconcile image src (Except.error e) lookup).calls = [] ∧
    (reconcile image src (Except.error e) lookup).src.status.sinkProvidedCond =
      some ⟨CondStatus.cfalse, "NotFound", ""⟩ ∧
    IsReady (reconcile image src (Except.error e) lookup).src.status = false := by
  refine ⟨?_, ?_, ?_, ?_⟩ <;>
    simp [reconcile, hdel, MarkNoSink, recomputeReady, InitializeConditions, IsReady,
      statusOf, aggregate_false_left]

/-- Witness for C7: a concrete source whose sink fails to resolve. -/
theorem reconcile_sinkFailure_witness :
    (reconcile "test-image" srcKiam (Except.error "no sink") LookupResult.notFound).err =
      some "no sink" ∧
    (reconcile "test-image" srcKiam (Except.error "no sink") LookupResult.notFound).calls = [] ∧
    (reconcile "test-image" srcKiam (Except.error "no sink")
        LookupResult.notFound).src.status.sinkProvidedCond =
      some ⟨CondStatus.cfalse, "NotFound", ""⟩ ∧
    IsReady (reconcile "test-image" srcKiam (Except.error "no sink")
        LookupResult.notFound).src.status = false :=
  reconcile_sinkFailure "test-image" srcKiam "no sink" LookupResult.notFound rfl

/-- C8: reconciling a source marked for deletion removes this controller's
finalizer, returns no error, issues no workload API call, and leaves every
other field of the source (identity, deletion timestamp, spec and status,
hence all conditions and the sink URI) unchanged. -/
theorem reconcile_deletion (image : String) (src : KinesisSource)
    (sinkResult : Except String String) (lookup : LookupResult) (t : Int)
    (hdel : src.deletionTimestamp = some t) :
    (reconcile image src sinkResult lookup).calls = [] ∧
    (reconcile image src sinkResult lookup).err = none ∧
    (reconcile image src sinkResult lookup).src.name = src.name ∧
    (reconcile image src sinkResult lookup).src.ns = src.ns ∧
    (reconcile image src sinkResult lookup).src.deletionTimestamp = src.deletionTimestamp ∧
    (reconcile image src sinkResult lookup).src.spec = src.spec ∧
    (reconcile image src sinkResult lookup).src.status = src.status ∧
    (reconcile image src sinkResult lookup).src.finalizers =
      removeFinalizer src.finalizers ∧
    finalizerName ∉ (reconcile image src sinkResult lookup).src.finalizers := by
  refine ⟨?_, ?_, ?_, ?_, ?_, ?_, ?_, ?_, ?_⟩ <;>
    simp [reconcile, hdel, removeFinalizer, stringSetList, List.mem_insertionSort,
      List.mem_dedup, List.mem_filter]

/-- Witness for C8: deleting the sample source that carries the finalizer. -/
theorem reconcile_deletion_witness :
    (reconcile "test-image" srcDel (Except.ok "sink-uri") LookupResult.notFound).calls = [] ∧
    (reconcile "test-image" srcDel (Except.ok "sink-uri") LookupResult.notFound).err = none ∧
    (reconcile "test-image" srcDel (Except.ok "sink-uri") LookupResult.notFound).src.name =
      srcDel.name ∧
    (reconcile "test-image" srcDel (Except.ok "sink-uri") LookupResult.notFound).src.ns =
      srcDel.ns ∧
    (reconcile "test-image" srcDel (Except.ok "sink-uri")
        LookupResult.notFound).src.deletionTimestamp = srcDel.deletionTimestamp ∧
    (reconcile "test-image" srcDel (Except.ok "sink-uri") LookupResult.notFound).src.spec =
      srcDel.spec ∧
    (reconcile "test-image" srcDel (Except.ok "sink-uri") LookupResult.notFound).src.status =
      srcDel.status ∧
    (reconcile "test-image" srcDel (Except.ok "sink-uri") LookupResult.notFound).src.finalizers =
      removeFinalizer srcDel.finalizers ∧
    finalizerName ∉
      (reconcile "test-image" srcDel (Except.ok "sink-uri")
        LookupResult.notFound).src.finalizers :=
  reconcile_deletion "test-image" srcDel (Except.ok "sink-uri") LookupResult.notFound 5 rfl


/-! ## Claim C3: idempotent reconciliation of a matching workload -/

theorem zip_self_all (f : α → α → Bool) (l : List α) (h : ∀ a ∈ l, f a a = true) :
    ((l.zip l).all fun p => f p.1 p.2) = true := by
  induction l with
  | nil => rfl
  | cons a t ih =>
    simp only [List.zip_cons_cons, List.all_cons, Bool.and_eq_true]
    exact ⟨h a (List.mem_cons_self a t), ih fun b hb => h b (List.mem_cons_of_mem a hb)⟩

theorem listDeriv_self (f : α → α → Bool) (l : List α) (h : ∀ a ∈ l, f a a = true) :
    listDeriv f l l = true := by
  cases l with
  | nil => rfl
  | cons a t =>
    simp only [listDeriv, beq_self_eq_true, Bool.true_and]
    exact zip_self_all f (a :: t) h

theorem envVarDeriv_self (x : EnvVar) : envVarDeriv x x = true := by
  simp [envVarDeriv]

theorem volumeMountDeriv_self (x : VolumeMount) : volumeMountDeriv x x = true := by
  simp [volumeMountDeriv]

theorem volumeDeriv_self (x : Volume) : volumeDeriv x x = true := by
  simp [volumeDeriv]

theorem containerDeriv_self (x : Container) : containerDeriv x x = true := by
  unfold containerDeriv
  rw [listDeriv_self envVarDeriv x.env fun a _ => envVarDeriv_self a,
    listDeriv_self volumeMountDeriv x.volumeMounts fun a _ => volumeMountDeriv_self a]
  simp

theorem podSpecDeriv_self (x : PodSpec) : podSpecDeriv x x = true := by
  unfold podSpecDeriv
  rw [listDeriv_self containerDeriv x.containers fun a _ => containerDeriv_self a,
    listDeriv_self volumeDeriv x.volumes fun a _ => volumeDeriv_self a]
  simp

theorem zip_self_any_env (l : List Container) :
    ((l.zip l).any fun p => p.1.env != p.2.env) = false := by
  induction l with
  | nil => rfl
  | cons a t ih => simp [List.zip_cons_cons, List.any_cons, ih]

theorem podSpecChanged_self (x : PodSpec) : podSpecChanged x x = false := by
  simp [podSpecChanged, podSpecDeriv_self, zip_self_any_env]

theorem createReceiveAdapter_matching (image sinkURI : String) (s' src : KinesisSource)
    (ra : Deployment) (hspec : s'.spec = src.spec) (hname : s'.name = src.name)
    (hcred : ¬(src.spec.awsCredsSecret.name = "" ∧ src.spec.awsCredsSecret.key = "" ∧
      src.spec.kiamOptions.assignedIAMRole = "" ∧ src.spec.kiamOptions.kclIAMRoleARN = ""))
    (hmatch : ra.spec.template.spec =
      (MakeReceiveAdapter
        { image := image, source := src, labels := getLabels src,
          sinkURI := sinkURI }).spec.template.spec) :
    createReceiveAdapter image s' sinkURI (LookupResult.found ra) = Except.ok (ra, []) := by
  have hexp : (MakeReceiveAdapter
      { image := image, source := s', labels := getLabels s',
        sinkURI := sinkURI }).spec.template.spec =
      (MakeReceiveAdapter
        { image := image, source := src, labels := getLabels src,
          sinkURI := sinkURI }).spec.template.spec := by
    simp only [MakeReceiveAdapter, makeDeploymentSpec, getLabels, hspec, hname]
  simp only [createReceiveAdapter]
  rw [if_neg (by rw [hspec]; exact hcred)]
  rw [hexp, ← hmatch, podSpecChanged_self]
  simp

/-- C3: a reconciliation pass over a live source with a valid credential
configuration, a successfully resolved sink, and an owned workload whose
managed pod template (pod-template fields and per-container env lists)
already equals the desired one issues zero create and zero update API
calls. -/
theorem reconcile_matching_noCalls (image : String) (src : KinesisSource) (sinkURI : String)
    (ra : Deployment) (hdel : src.deletionTimestamp = none)
    (hcred : ¬(src.spec.awsCredsSecret.name = "" ∧ src.spec.awsCredsSecret.key = "" ∧
      src.spec.kiamOptions.assignedIAMRole = "" ∧ src.spec.kiamOptions.kclIAMRoleARN = ""))
    (hmatch : ra.spec.template.spec =
      (MakeReceiveAdapter
        { image := image, source := src, labels := getLabels src,
          sinkURI := sinkURI }).spec.template.spec) :
    (reconcile image src (Except.ok sinkURI) (LookupResult.found ra)).calls = [] := by
  simp only [reconcile, hdel, Option.isSome_none, Bool.false_eq_true, if_false]
  rw [createReceiveAdapter_matching image sinkURI
    { name := src.name, ns := src.ns, finalizers := addFinalizer src.finalizers,
      deletionTimestamp := none, spec := src.spec,
      status := MarkSink (InitializeConditions src.status) sinkURI }
    src ra rfl rfl hcred hmatch]

/-- Witness for C3: reconciling the KIAM sample source against its own
generated deployment issues no API call. -/
theorem reconcile_matching_noCalls_witness :
    (reconcile "test-image" srcKiam (Except.ok "sink-uri")
      (LookupResult.found raKiam)).calls = [] :=
  reconcile_matching_noCalls "test-image" srcKiam "sink-uri" raKiam rfl (by decide) rfl


/-! ## Claim C4: credential validation in createReceiveAdapter -/

theorem createReceiveAdapter_ok_of_cred (image : String) (src : KinesisSource)
    (sinkURI : String) (lookup : LookupResult) (hlookup : ∀ e, lookup ≠ LookupResult.err e)
    (hc : ¬(src.spec.awsCredsSecret.name = "" ∧ src.spec.awsCredsSecret.key = "" ∧
      src.spec.kiamOptions.assignedIAMRole = "" ∧ src.spec.kiamOptions.kclIAMRoleARN = "")) :
    ∃ p, createReceiveAdapter image src sinkURI lookup = Except.ok p := by
  cases lookup with
  | err e => exact absurd rfl (hlookup e)
  | notFound =>
    exact ⟨_, by simp only [createReceiveAdapter]; rw [if_neg hc]⟩
  | found ra =>
    simp only [createReceiveAdapter]
    rw [if_neg hc]
    by_cases hch : podSpecChanged ra.spec.template.spec (MakeReceiveAdapter { image := image, source := src, labels := getLabels src, sinkURI := sinkURI }).spec.template.spec = true
    · exact ⟨_, by rw [if_pos hch]⟩
    · exact ⟨_, by rw [if_neg hch]⟩

theorem createReceiveAdapter_error_iff (image : String) (src : KinesisSource)
    (sinkURI : String) (lookup : LookupResult) (hlookup : ∀ e, lookup ≠ LookupResult.err e) :
    ((∃ e, createReceiveAdapter image src sinkURI lookup = Except.error e) ↔
      (src.spec.awsCredsSecret.name = "" ∧ src.spec.awsCredsSecret.key = "" ∧
       src.spec.kiamOptions.assignedIAMRole = "" ∧ src.spec.kiamOptions.kclIAMRoleARN = "")) ∧
    ((src.spec.awsCredsSecret.name = "" ∧ src.spec.awsCredsSecret.key = "" ∧
       src.spec.kiamOptions.assignedIAMRole = "" ∧ src.spec.kiamOptions.kclIAMRoleARN = "") →
      createReceiveAdapter image src sinkURI lookup = Except.error "Configuration error") := by
  by_cases hc : (src.spec.awsCredsSecret.name = "" ∧ src.spec.awsCredsSecret.key = "" ∧
      src.spec.kiamOptions.assignedIAMRole = "" ∧ src.spec.kiamOptions.kclIAMRoleARN = "")
  · have herr : createReceiveAdapter image src sinkURI lookup =
        Except.error "Configuration error" := by
      cases lookup with
      | err e => exact absurd rfl (hlookup e)
      | notFound => simp only [createReceiveAdapter]; rw [if_pos hc]
      | found ra => simp only [createReceiveAdapter]; rw [if_pos hc]
    exact ⟨⟨fun _ => hc, fun _ => ⟨"Configuration error", herr⟩⟩, fun _ => herr⟩
  · rcases createReceiveAdapter_ok_of_cred image src sinkURI lookup hlookup hc with ⟨p, hp⟩
    refine ⟨⟨?_, fun h => absurd h hc⟩, fun h => absurd h hc⟩
    rintro ⟨e, he⟩
    rw [hp] at he
    exact Except.noConfusion he

/-- C4 (amended): `createReceiveAdapter` rejects a credential configuration
exactly when all four credential fields (secret name, secret key, assigned
role, consumer role ARN) are empty, failing with "Configuration error"; a
source violating the spec's exactly-one rule in any other way (for instance
both forms populated) is not rejected.  The step reads only the spec of the
source and touches no status condition. -/
theorem createReceiveAdapter_configError (image : String) (src : KinesisSource)
    (sinkURI : String) (lookup : LookupResult) (hlookup : ∀ e, lookup ≠ LookupResult.err e) :
    ((∃ e, createReceiveAdapter image src sinkURI lookup = Except.error e) ↔
      (src.spec.awsCredsSecret.name = "" ∧ src.spec.awsCredsSecret.key = "" ∧
       src.spec.kiamOptions.assignedIAMRole = "" ∧ src.spec.kiamOptions.kclIAMRoleARN = "")) ∧
    ((src.spec.awsCredsSecret.name = "" ∧ src.spec.awsCredsSecret.key = "" ∧
       src.spec.kiamOptions.assignedIAMRole = "" ∧ src.spec.kiamOptions.kclIAMRoleARN = "") →
      createReceiveAdapter image src sinkURI lookup = Except.error "Configuration error") :=
  createReceiveAdapter_error_iff image src sinkURI lookup hlookup

/-- Witness for C4 (amended): the empty-credential sample source is rejected
with the configuration error. -/
theorem createReceiveAdapter_configError_witness :
    createReceiveAdapter "test-image" srcEmpty "sink-uri" LookupResult.notFound =
      Except.error "Configuration error" :=
  (createReceiveAdapter_configError "test-image" srcEmpty "sink-uri" LookupResult.notFound
    (fun _ h => LookupResult.noConfusion h)).2 ⟨rfl, rfl, rfl, rfl⟩

/-- C4 counterexample: the claim as stated is false — the sample source with
both the secret reference and the role-assumption pair populated does not
satisfy the exactly-one rule, yet `createReceiveAdapter` succeeds instead of
failing with a configuration error. -/
theorem createReceiveAdapter_bothPopulated :
    credConfigExactlyOne srcBoth.spec = false ∧
    ∃ d calls, createReceiveAdapter "test-image" srcBoth "sink-uri" LookupResult.notFound =
      Except.ok (d, calls) := by
  exact ⟨by decide, ⟨_, _, rfl⟩⟩

/-! ## Claim C6: credential shape of the generated workload -/

/-- C6 (amended): when both the secret name and key are set the generated
workload mounts the secret volume and sets AWS_APPLICATION_CREDENTIALS to
the mount path joined with the secret key; in every other case (role-only
configurations, but also partial ones) the workload carries no credential
volume, is annotated with the assigned role, and sets KCL_IAM_ROLE_ARN;
workload creation fails with a configuration error exactly when all four
credential fields are empty. -/
theorem makeDeploymentSpec_credentials (args : ReceiveAdapterArgs) :
    ((args.source.spec.awsCredsSecret.name ≠ "" ∧ args.source.spec.awsCredsSecret.key ≠ "") →
      (makeDeploymentSpec args).template.spec.volumes =
        [⟨"aws-credentials", args.source.spec.awsCredsSecret.name⟩] ∧
      ∃ c, (makeDeploymentSpec args).template.spec.containers = [c] ∧
        c.volumeMounts = [⟨"aws-credentials", "/var/secrets/aws"⟩] ∧
        (⟨"AWS_APPLICATION_CREDENTIALS",
          "/var/secrets/aws/" ++ args.source.spec.awsCredsSecret.key⟩ : EnvVar) ∈ c.env) ∧
    (¬(args.source.spec.awsCredsSecret.name ≠ "" ∧ args.source.spec.awsCredsSecret.key ≠ "") →
      (makeDeploymentSpec args).template.spec.volumes = [] ∧
      ("iam.amazonaws.com/role", args.source.spec.kiamOptions.assignedIAMRole) ∈
        (makeDeploymentSpec args).template.annotations ∧
      ∃ c, (makeDeploymentSpec args).template.spec.containers = [c] ∧
        c.volumeMounts = [] ∧
        (⟨"KCL_IAM_ROLE_ARN", args.source.spec.kiamOptions.kclIAMRoleARN⟩ : EnvVar) ∈ c.env) ∧
    (∀ lookup : LookupResult, (∀ e, lookup ≠ LookupResult.err e) →
      ((∃ e, createReceiveAdapter args.image args.source args.sinkURI lookup = Except.error e) ↔
        (args.source.spec.awsCredsSecret.name = "" ∧ args.source.spec.awsCredsSecret.key = "" ∧
         args.source.spec.kiamOptions.assignedIAMRole = "" ∧
         args.source.spec.kiamOptions.kclIAMRoleARN = ""))) := by
  refine ⟨?_, ?_, ?_⟩
  · intro h
    simp only [makeDeploymentSpec]
    rw [if_pos h]
    exact ⟨rfl, _, rfl, rfl, by simp⟩
  · intro h
    simp only [makeDeploymentSpec]
    rw [if_neg h]
    exact ⟨rfl, by simp, _, rfl, rfl, by simp⟩
  · intro lookup hlookup
    exact (createReceiveAdapter_error_iff args.image args.source args.sinkURI lookup hlookup).1

/-- Witness for C6 (amended) at the secret-configured sample source: the
generated workload mounts the credential volume and sets the credential file
environment variable. -/
theorem makeDeploymentSpec_credentials_witness :
    (makeDeploymentSpec argsBoth).template.spec.volumes =
      [⟨"aws-credentials", argsBoth.source.spec.awsCredsSecret.name⟩] ∧
    ∃ c, (makeDeploymentSpec argsBoth).template.spec.containers = [c] ∧
      c.volumeMounts = [⟨"aws-credentials", "/var/secrets/aws"⟩] ∧
      (⟨"AWS_APPLICATION_CREDENTIALS",
        "/var/secrets/aws/" ++ argsBoth.source.spec.awsCredsSecret.key⟩ : EnvVar) ∈ c.env :=
  (makeDeploymentSpec_credentials argsBoth).1 ⟨by decide, by decide⟩

/-- C6 counterexample: the claim as stated is false on two inputs — the
sample source whose role pair is populated alongside the secret gets a
workload with a credential volume and no role annotation, and the source
with only a secret name (neither complete configuration) succeeds instead of
failing with a configuration error. -/
theorem makeDeploymentSpec_counterexample :
    (credRolePopulated srcBoth.spec = true ∧
      (MakeReceiveAdapter argsBoth).spec.template.spec.volumes ≠ [] ∧
      ("iam.amazonaws.com/role", srcBoth.spec.kiamOptions.assignedIAMRole) ∉
        (MakeReceiveAdapter argsBoth).spec.template.annotations) ∧
    (credSecretPopulated srcPartial.spec = false ∧ credRolePopulated srcPartial.spec = false ∧
      ∃ d calls, createReceiveAdapter "test-image" srcPartial "sink-uri" LookupResult.notFound =
        Except.ok (d, calls)) := by
  exact ⟨⟨by decide, by decide, by decide⟩, by decide, by decide, ⟨_, _, rfl⟩⟩

/-! ## Claims C2, C10: the ProcessRecords callback -/

theorem postMessage_cons (a : Adapter) (now : Int) (send : CloudEvent → Except String Unit)
    (r0 : KRecord) (t : List KRecord) (millis : Int) :
    ∃ ev0, recordsEvent a now ⟨r0 :: t, millis⟩ = some ev0 ∧
      postMessage a now send ⟨r0 :: t, millis⟩ = some (ev0, send ev0) :=
  ⟨_, rfl, rfl⟩

theorem cons_get_last (r0 : α) (t : List α) :
    ∃ lr, (r0 :: t).get? ((r0 :: t).length - 1) = some lr ∧ (r0 :: t).getLast? = some lr := by
  have hlen : (r0 :: t).length - 1 < (r0 :: t).length := by
    simp
  refine ⟨(r0 :: t).get ⟨(r0 :: t).length - 1, hlen⟩, List.get?_eq_get hlen, ?_⟩
  rw [List.getLast?_eq_get?]
  exact List.get?_eq_get hlen

/-- C2: for every batch handed to `ProcessRecords`, a checkpoint is issued
exactly when the batch is non-empty and the synchronous forward returned no
error; an issued checkpoint carries the last record's sequence number; an
empty batch produces no envelope and no checkpoint; a forward error returns
without checkpointing. -/
theorem ProcessRecords_checkpoint (a : Adapter) (now : Int)
    (send : CloudEvent → Except String Unit) (m : ProcessRecordsInput) :
    (m.records = [] → ProcessRecords a now send m = some { posted := none, checkpoint := none }) ∧
    (∀ ev r, postMessage a now send m = some (ev, r) →
      ((r = Except.ok () →
        ∃ lastRecord, m.records.getLast? = some lastRecord ∧
          ProcessRecords a now send m =
            some { posted := some ev, checkpoint := some (some lastRecord.sequenceNumber) }) ∧
      (∀ e, r = Except.error e →
        ProcessRecords a now send m = some { posted := some ev, checkpoint := none }))) ∧
    ((∃ res, ProcessRecords a now send m = some res ∧ res.checkpoint.isSome = true) ↔
      (m.records ≠ [] ∧ ∃ ev, postMessage a now send m = some (ev, Except.ok ()))) := by
  rcases m with ⟨recs, millis⟩
  cases recs with
  | nil =>
    refine ⟨fun _ => rfl, ?_, ?_⟩
    · intro ev r h
      simp [postMessage, recordsEvent] at h
    · constructor
      · rintro ⟨res, hres, hcp⟩
        simp only [ProcessRecords, List.length_nil, if_pos rfl] at hres
        rw [← Option.some_inj.mp hres] at hcp
        simp at hcp
      · rintro ⟨hne, _⟩
        exact absurd rfl hne
  | cons r0 t =>
    obtain ⟨ev0, hev0, hpm⟩ := postMessage_cons a now send r0 t millis
    obtain ⟨lr, hlr, hlast⟩ := cons_get_last r0 t
    have hlen0 : ¬((⟨r0 :: t, millis⟩ : ProcessRecordsInput).records.length = 0) := by
      simp
    refine ⟨?_, ?_, ?_⟩
    · intro h
      exact absurd h (by simp)
    · intro ev r hin
      rw [hpm] at hin
      rw [Option.some_inj, Prod.mk.injEq] at hin
      obtain ⟨hev, hr⟩ := hin
      subst hev
      subst hr
      constructor
      · intro hok
        refine ⟨lr, hlast, ?_⟩
        simp only [ProcessRecords]
        rw [if_neg hlen0, hpm, hok]
        simp only []
        rw [hlr]
      · intro e her
        simp only [ProcessRecords]
        rw [if_neg hlen0, hpm, her]
    · constructor
      · rintro ⟨res, hres, hcp⟩
        refine ⟨by simp, ?_⟩
        cases hsend : send ev0 with
        | ok u =>
          cases u
          exact ⟨ev0, by rw [hpm, hsend]⟩
        | error e =>
          rw [ProcessRecords] at hres
          rw [if_neg hlen0, hpm, hsend] at hres
          rw [← Option.some_inj.mp hres] at hcp
          simp at hcp
      · rintro ⟨_, ev, hev⟩
        rw [hpm, Option.some_inj, Prod.mk.injEq] at hev
        obtain ⟨hev1, hsend⟩ := hev
        refine ⟨{ posted := some ev0, checkpoint := some (some lr.sequenceNumber) }, ?_, rfl⟩
        simp only [ProcessRecords]
        rw [if_neg hlen0, hpm, hsend]
        simp only []
        rw [hlr]

/-- Witness for C2: the sample single-record batch forwarded to an accepting
sink is checkpointed at sequence number "1234567". -/
theorem ProcessRecords_checkpoint_witness :
    ∃ lastRecord, batchSample.records.getLast? = some lastRecord ∧
      ProcessRecords adapterSample 0 sendOk batchSample =
        some { posted := some evSample,
               checkpoint := some (some lastRecord.sequenceNumber) } :=
  ((ProcessRecords_checkpoint adapterSample 0 sendOk batchSample).2.1 evSample
    (Except.ok ()) rfl).1 rfl

/-- C10: the record accesses inside the callback are always in bounds — for
every adapter, clock, sink outcome and batch, `ProcessRecords` never reaches
an out-of-bounds access (`none` would model a panic on `Records[0]` or
`Records[len-1]`), while the envelope builder alone is partial exactly on
the empty batch, which the guard filters out before `postMessage` is
reached. -/
theorem ProcessRecords_inbounds (a : Adapter) (now : Int)
    (send : CloudEvent → Except String Unit) (m : ProcessRecordsInput) :
    (ProcessRecords a now send m).isSome = true ∧
    (recordsEvent a now m).isSome = !m.records.isEmpty := by
  rcases m with ⟨recs, millis⟩
  cases recs with
  | nil => exact ⟨rfl, rfl⟩
  | cons r0 t =>
    refine ⟨?_, rfl⟩
    obtain ⟨ev0, hev0, hpm⟩ := postMessage_cons a now send r0 t millis
    obtain ⟨lr, hlr, hlast⟩ := cons_get_last r0 t
    have hlen0 : ¬((⟨r0 :: t, millis⟩ : ProcessRecordsInput).records.length = 0) := by
      simp
    cases hsend : send ev0 with
    | ok u =>
      cases u
      rw [ProcessRecords, if_neg hlen0, hpm, hsend]
      simp only []
      rw [hlr]
      rfl
    | error e =>
      rw [ProcessRecords, if_neg hlen0, hpm, hsend]
      rfl

/-! ## Claim C9: the Shutdown callback -/

/-- C9: the `Shutdown` callback issues a checkpoint exactly when the
shutdown reason is terminate, and that checkpoint carries no explicit
offset; every other reason issues no checkpoint call. -/
theorem Shutdown_checkpoint (reason : ShutdownReason) :
    ((Shutdown reason).isSome = true ↔ reason = ShutdownReason.terminate) ∧
    Shutdown ShutdownReason.terminate = some none ∧
    (∀ r : ShutdownReason, r ≠ ShutdownReason.terminate → Shutdown r = none) := by
  refine ⟨?_, rfl, ?_⟩
  · cases reason <;> simp [Shutdown]
  · intro r hr
    cases r with
    | terminate => exact absurd rfl hr
    | zombie => rfl
    | requested => rfl

/-- Witness for C9: a zombie shutdown issues no checkpoint. -/
theorem Shutdown_checkpoint_witness : Shutdown ShutdownReason.zombie = none :=
  (Shutdown_checkpoint ShutdownReason.zombie).2.2 ShutdownReason.zombie
    (fun h => ShutdownReason.noConfusion h)


/-! ## Claim C5: the event id of the envelope -/

/-- C5 (code bug): on the sample batch the event id is built by formatting
the *pointer* `m.Records[0].SequenceNumber` with Go's `%v`, which prints the
address of the pointer cell (a `0x`-prefixed hexadecimal) rather than the
sequence-number string, so for every address the id differs from the value
the claim prescribes (the sequence-number string "1234567" followed by the
record count). -/
theorem recordsEvent_id_pointer (addr : Nat) (now : Int) :
    ∃ ev, recordsEvent adapterSample now (batchAddr addr) = some ev ∧
      ev.id = goFmtPtrString addr ++ ":" ++ toString (batchAddr addr).records.length ∧
      ev.id ≠ "1234567" ++ ":" ++ toString (batchAddr addr).records.length := by
  have h1 : (batchAddr addr).records.length = 1 := rfl
  have ht : toString (batchAddr addr).records.length = "1" := by rw [h1]; rfl
  refine ⟨_, rfl, rfl, ?_⟩
  intro h
  rw [ht] at h
  have h' : goFmtPtrString addr ++ ":" ++ "1" = "1234567" ++ ":" ++ "1" := h
  simp only [goFmtPtrString] at h'
  have hd := congrArg String.data h'
  simp only [String.data_append] at hd
  simp only [List.cons_append, List.nil_append, List.append_assoc] at hd
  injection hd with hhead _
  exact absurd hhead (by decide)
